import Mathlib

/-!
Verification of the kagglebreak XGBoost tutorial notebooks.

The repository consists of two Jupyter notebooks:
* the "Using standard interface" notebook (`src/unnamed/part_000`), which loads
  the agaricus dataset into `xgb.DMatrix`, sets a parameter dictionary, calls
  `xgb.train`, `bst.predict`, and finally computes an accuracy metric with a
  hand-written Python `for` loop over the predictions;
* the "Deal with missing values" notebook
  (`src/xgboost_lec/3. Going deeper/3.5 Deal with missing values.ipynb`), which
  seeds numpy's global random generator, draws a 10x5 matrix `data_v`, copies it
  to `data_m`, overwrites seven positions of `data_m` with `np.nan`, draws a
  binary `label` vector, and feeds the data to `xgb.DMatrix`, `xgb.cv`,
  `XGBClassifier` and `cross_val_score`.

This file shallowly embeds the notebook-owned computations (the accuracy loop,
the thresholding of probabilities, the NaN-assignment sequence, the seeded data
preparation, the cell-level control flow of the failed training run) and the
call transcript of both notebooks, and proves the claims of the specification
about them.  Python floats are modelled as rationals, with a distinguished
`nan` value where the code manipulates `np.nan`; the external XGBoost/sklearn
library calls are kept opaque.
-/

/-- A numpy floating-point cell value as the missing-values notebook uses it:
either an ordinary numeric value (modelled as a rational) or `np.nan`. -/
inductive NpVal where
  | num (q : ℚ)
  | nan
deriving DecidableEq, Repr

/-- A 10x5 numpy array of float cells, the shape of `data_v` and `data_m`
(`np.random.rand(10,5)` makes 10 rows of 5 features). -/
def NpMatrix : Type := Fin 10 → Fin 5 → NpVal

/-- `np.copy(data_v)`: an element-wise copy of the array.  In the functional
embedding the copy has exactly the same entries as the original. -/
def npCopy (m : NpMatrix) : NpMatrix := fun i j => m i j

/-- A single numpy index assignment `m[r, c] = v`, producing the updated
array; all other entries are untouched. -/
def setIndex (m : NpMatrix) (r : Fin 10) (c : Fin 5) (v : NpVal) : NpMatrix :=
  fun i j => if i = r ∧ j = c then v else m i j

/-- The program state of the data-preparation cells of the missing-values
notebook: the two array variables `data_v` and `data_m`. -/
structure MissingState where
  data_v : NpMatrix
  data_m : NpMatrix

/-- One notebook statement `data_m[r, c] = np.nan`: it rebinds only the
`data_m` variable, with the entry at `(r, c)` set to NaN. -/
def assignNan (s : MissingState) (r : Fin 10) (c : Fin 5) : MissingState :=
  { s with data_m := setIndex s.data_m r c NpVal.nan }

/-- The seven positions assigned `np.nan` in cell `data_m = np.copy(data_v); …`
of the missing-values notebook, in the order the assignments appear:
(2,3), (0,1), (0,2), (1,0), (4,4), (7,2), (9,1). -/
def nanAssignments : List (Fin 10 × Fin 5) :=
  [(2, 3), (0, 1), (0, 2), (1, 0), (4, 4), (7, 2), (9, 1)]

/-- The whole `data_m` construction cell: `data_m = np.copy(data_v)` followed by
the seven `data_m[r, c] = np.nan` assignments, starting from a state in which
`data_v` holds the valid dataset. -/
def runConstruction (dv : NpMatrix) : MissingState :=
  nanAssignments.foldl (fun s p => assignNan s p.1 p.2)
    { data_v := dv, data_m := npCopy dv }

/-- The argument record of the notebook call
`xgb.DMatrix(data_m, label=label, missing=np.nan)` (cell 17 of the
missing-values notebook): the data matrix passed is the current value of the
`data_m` variable, i.e. the result of the construction cell, the labels are
passed unchanged, and the `missing` marker is `np.nan`. -/
structure DMatrixCall where
  data : NpMatrix
  label : List ℕ
  missing : NpVal

/-- The `xgb.DMatrix(data_m, label=label, missing=np.nan)` call as issued by
the notebook, as a function of the valid dataset and label vector in scope. -/
def dmatrixMissingCall (dv : NpMatrix) (lab : List ℕ) : DMatrixCall :=
  { data := (runConstruction dv).data_m, label := lab, missing := NpVal.nan }

/-- The data argument of the notebook call
`cross_val_score(clf, data_m, label, cv=2, scoring='accuracy')` (cell 27):
again the current value of the `data_m` variable. -/
def crossValMissingArg (dv : NpMatrix) : NpMatrix :=
  (runConstruction dv).data_m

/-! ### The accuracy loop of the standard-interface notebook

```python
labels = dtest.get_label()
preds = preds_prob > 0.5 # threshold
correct = 0.

for i in range(len(preds)):
    if (labels[i] == preds[i]):
        correct += 1.

print('Predicted correctly: {0}/{1}'.format(correct, len(preds)))
print('Error: {0:.4f}'.format(1-correct/len(preds)))
```

`labels` is a float vector of 0.0/1.0 class labels, `preds` a boolean vector;
the numpy comparison `labels[i] == preds[i]` coerces the boolean to the float
1.0 or 0.0.  Floats are modelled as rationals. -/

/-- The float a Python/numpy boolean is coerced to in a comparison with a
float: `True` is 1.0 and `False` is 0.0. -/
def boolToFloat (b : Bool) : ℚ := if b then 1 else 0

/-- `preds = preds_prob > 0.5`: elementwise strict comparison of the predicted
probabilities with the threshold 0.5. -/
def predsOf (preds_prob : List ℚ) : List Bool :=
  preds_prob.map (fun p => decide ((1 : ℚ) / 2 < p))

/-- The accumulator loop
`correct = 0.; for i in range(len(preds)): if labels[i] == preds[i]: correct += 1.`
of the standard-interface notebook.  `correct` is a Python float, so the
accumulator lives in ℚ; out-of-range indexing cannot occur when
`len(labels) = len(preds)`, which is the situation the notebook runs in, so
indexing is embedded with a default value. -/
def correctCount (labels : List ℚ) (preds : List Bool) : ℚ :=
  (List.range preds.length).foldl
    (fun correct i =>
      if labels.getD i 0 = boolToFloat (preds.getD i false) then correct + 1
      else correct) 0

/-- The quantity printed by `print('Error: …'.format(1-correct/len(preds)))`. -/
def errorRate (labels : List ℚ) (preds : List Bool) : ℚ :=
  1 - correctCount labels preds / preds.length

/-! ### The seeded data preparation of the missing-values notebook

The notebook sets `seed = 123` and then runs

```python
np.random.seed(seed)
data_v = np.random.rand(10,5)
data_m = np.copy(data_v); data_m[2,3] = np.nan; …  # seven assignments
np.random.seed(seed)
label = np.random.randint(2, size=10)
```

numpy's global random generator is external-library code; it is modelled here
as a deterministic seeded generator with an explicit state threaded through the
draws (a linear-congruential stand-in for numpy's Mersenne Twister — the claims
proved below depend only on the generator being a deterministic function of the
seed, on `rand` producing numeric values, and on `randint(2, …)` reducing draws
mod 2).  `np.random.seed(n)` replaces the global state by a state depending
only on `n`, discarding whatever state was there before. -/

/-- One step of the modelled global generator. -/
def rngNext (s : ℕ) : ℕ := (1103515245 * s + 12345) % 2 ^ 31

/-- `np.random.seed(n)`: the global generator state after seeding, a function
of the seed alone. -/
def npRandomSeed (n : ℕ) : ℕ := n % 2 ^ 31

/-- Draw `k` raw values from the generator, returning them with the new
state. -/
def drawNats : ℕ → ℕ → List ℕ × ℕ
  | 0, s => ([], s)
  | k + 1, s =>
    let s' := rngNext s
    let (rest, s'') := drawNats k s'
    (s' :: rest, s'')

/-- `np.random.rand(10,5)`: a 10x5 array of numeric (never-NaN) floats drawn
from the global generator, row-major, together with the new state. -/
def npRand10x5 (s : ℕ) : NpMatrix × ℕ :=
  let (vs, s') := drawNats 50 s
  (fun i j => NpVal.num ((vs.getD (i.val * 5 + j.val) 0 : ℚ) / 2 ^ 31), s')

/-- `np.random.randint(n, size=k)`: `k` integers uniformly below `n`, each a
raw draw reduced mod `n`, together with the new state. -/
def npRandint (n k : ℕ) (s : ℕ) : List ℕ × ℕ :=
  let (vs, s') := drawNats k s
  (vs.map (· % n), s')

/-- The `reproducibility` constant of the missing-values notebook:
`seed = 123`. -/
def seedConst : ℕ := 123

/-- The variables produced by the data-preparation cells. -/
structure PrepResult where
  data_v : NpMatrix
  data_m : NpMatrix
  label : List ℕ
  rng : ℕ

/-- The data-preparation cells of the missing-values notebook, run from an
arbitrary prior global-generator state `s0`: seed, draw `data_v`, build
`data_m` by copy-and-NaN-assignments, re-seed, draw `label`. -/
def dataPrep (s0 : ℕ) : PrepResult :=
  let s1 := npRandomSeed seedConst
  let (dv, s2) := npRand10x5 s1
  let dm := (runConstruction dv).data_m
  let s3 := npRandomSeed seedConst
  let (lab, s4) := npRandint 2 10 s3
  { data_v := dv, data_m := dm, label := lab, rng := s4 }

/-! ### Cell-level control flow of the failed training run

In the standard-interface notebook the cell `bst = xgb.train(params, dtrain,
num_rounds)` raised a `WindowsError` from inside the library; no cell of either
notebook contains a `try`/`except` handler, so the exception propagated to the
Jupyter top level, the assignment to `bst` never happened, and the later cell
`preds_prob = bst.predict(dtest)` failed with `NameError: name 'bst' is not
defined`.  The embedding keeps the library's training result opaque (an
arbitrary `Except` value) and models a cell as an exception-monad computation
over the environment; Jupyter runs cells in sequence and a failing cell leaves
the environment unchanged while reporting the exception. -/

/-- A trained booster handle returned by `xgb.train`; its contents are opaque
to the notebook. -/
structure Booster where
  id : ℕ
deriving DecidableEq

/-- The Python exceptions observed in the notebook's recorded outputs. -/
inductive PyExc where
  | windowsError
  | nameError
deriving DecidableEq, Repr

/-- The interpreter environment as far as the cells under study read it: the
binding of the name `bst`, which is absent until an assignment to it
succeeds. -/
structure Env where
  bst : Option Booster
deriving DecidableEq

/-- The environment before the training cell runs: `bst` is not yet defined. -/
def initialEnv : Env := { bst := none }

/-- The cell `bst = xgb.train(params, dtrain, num_rounds)`, with the library
call's outcome supplied as `trainResult`.  The cell body contains no
`try`/`except`, so a raising call makes the whole cell raise and the assignment
to `bst` is never reached. -/
def trainCell (trainResult : Except PyExc Booster) (env : Env) : Except PyExc Env :=
  match trainResult with
  | .ok b => .ok { env with bst := some b }
  | .error e => .error e

/-- Jupyter running one cell: on success the environment is updated, on an
uncaught exception the environment is kept and the exception is reported at
top level. -/
def runCell (cell : Env → Except PyExc Env) (env : Env) : Env × Option PyExc :=
  match cell env with
  | .ok env' => (env', none)
  | .error e => (env, some e)

/-- The cell `preds_prob = bst.predict(dtest)`, with the library's predict
outcome supplied as `predictResult`.  Evaluating the name `bst` when it is
unbound raises `NameError` before the library is ever called. -/
def predictCell (env : Env) (predictResult : Booster → Except PyExc (List ℚ)) :
    Except PyExc (Env × List ℚ) :=
  match env.bst with
  | none => .error PyExc.nameError
  | some b =>
    match predictResult b with
    | .ok pp => .ok (env, pp)
    | .error e => .error e

/-! ### The call transcripts of the two notebooks

Each code cell of the notebooks is transcribed as one operation (two
consecutive one-line statements inside a single cell that perform the same kind
of step are merged).  The transcription records, for each operation, whether it
is a call into the external XGBoost/sklearn/numpy library, whether it is a
computation implemented locally in the notebook whose result is reported to the
user, and whether its cell wraps anything in an exception handler. -/

/-- The kinds of operations appearing in the notebooks' code cells. -/
inductive NotebookOp where
  /-- `import numpy as np; import xgboost as xgb` (and, in the missing-values
  notebook, the sklearn imports). -/
  | importLibraries
  /-- `dtrain = xgb.DMatrix('../data/agaricus.txt.train')` and the analogous
  test-file load. -/
  | dmatrixFromFile
  /-- `dtrain.feature_names`, displayed. -/
  | featureNames
  /-- `print("Train dataset contains {0} rows and {1} columns".format(…))`
  using `num_row()` / `num_col()`. -/
  | printShape
  /-- `print(np.unique(dtrain.get_label()))` and the test analogue. -/
  | printLabels
  /-- A parameter-dictionary assignment `params = { … }`. -/
  | paramsDict
  /-- `bst = xgb.train(params, dtrain, num_rounds)`. -/
  | trainCall
  /-- `watchlist = […]; bst = xgb.train(params, dtrain, num_rounds, watchlist)`. -/
  | trainWithWatchlist
  /-- `preds_prob = bst.predict(dtest)`. -/
  | predictCall
  /-- The accuracy cell: `labels = dtest.get_label(); preds = preds_prob > 0.5;`
  then the local `for` loop accumulating `correct` and the two `print`
  statements reporting `correct` and `1-correct/len(preds)`. -/
  | accuracyLoopCell
  /-- `seed = 123`. -/
  | seedAssign
  /-- `np.random.seed(seed); data_v = np.random.rand(10,5)`. -/
  | randomRandCell
  /-- `data_m = np.copy(data_v)` followed by the seven `data_m[…] = np.nan`
  assignments. -/
  | nanAssignCell
  /-- `np.random.seed(seed); label = np.random.randint(2, size=10)`. -/
  | randomRandintCell
  /-- `dtrain_v = xgb.DMatrix(data_v, label=label)`. -/
  | dmatrixFromArray
  /-- `dtrain_m = xgb.DMatrix(data_m, label=label, missing=np.nan)`. -/
  | dmatrixFromArrayMissing
  /-- `xgb.cv(params, …, num_rounds, seed=seed)`, displayed. -/
  | cvCall
  /-- `clf = XGBClassifier(**params)`, displayed. -/
  | classifierCtor
  /-- `cross_val_score(clf, …, label, cv=2, scoring='accuracy')`, displayed. -/
  | crossValScoreCall
deriving DecidableEq, Repr

/-- The code cells of the standard-interface notebook (`src/unnamed/part_000`),
in execution order. -/
def standardInterfaceOps : List NotebookOp :=
  [NotebookOp.importLibraries, NotebookOp.dmatrixFromFile, NotebookOp.featureNames,
   NotebookOp.printShape, NotebookOp.printLabels, NotebookOp.paramsDict,
   NotebookOp.trainCall, NotebookOp.trainWithWatchlist, NotebookOp.predictCall,
   NotebookOp.accuracyLoopCell]

/-- The code cells of the missing-values notebook
(`src/xgboost_lec/3. Going deeper/3.5 Deal with missing values.ipynb`), in
order. -/
def missingValuesOps : List NotebookOp :=
  [NotebookOp.importLibraries, NotebookOp.seedAssign, NotebookOp.randomRandCell,
   NotebookOp.nanAssignCell, NotebookOp.randomRandintCell, NotebookOp.paramsDict,
   NotebookOp.dmatrixFromArray, NotebookOp.cvCall, NotebookOp.dmatrixFromArrayMissing,
   NotebookOp.cvCall, NotebookOp.paramsDict, NotebookOp.classifierCtor,
   NotebookOp.crossValScoreCall, NotebookOp.crossValScoreCall]

/-- All code cells of the repository's notebooks. -/
def notebookOps : List NotebookOp := standardInterfaceOps ++ missingValuesOps

/-- Whether an operation is a computation implemented locally in the notebook
(not a call into the external library) whose result is reported to the user.
Only the accuracy cell qualifies: its `for` loop computes `correct` in plain
Python and its `print` statements report `correct` and the derived error rate.
Every other cell either assigns literals, calls the library, or prints/displays
a value obtained directly from a library call. -/
def isLocalComputationReported : NotebookOp → Bool
  | NotebookOp.accuracyLoopCell => true
  | _ => false

/-- Whether a cell wraps any of its calls in an exception handler.  No cell of
either notebook contains a `try`/`except` (or any other handling construct),
so this is `false` for every transcribed operation. -/
def hasExcHandler : NotebookOp → Bool
  | _ => false

/-- The claim of the specification that, apart from sequencing library calls
and printing or plotting their results, the notebook code implements no
computation of its own that is reported to the user. -/
def noLocalComputationClaim : Prop :=
  ∀ op ∈ notebookOps, isLocalComputationReported op = false

/-- A concrete all-numeric 10x5 dataset, used to instantiate theorems whose
hypotheses require a NaN-free valid dataset. -/
def constDV : NpMatrix := fun _ _ => NpVal.num 0

/-! ### Helper lemmas -/

/-- No `data_m[r, c] = np.nan` assignment touches the `data_v` variable. -/
lemma runConstruction_data_v (dv : NpMatrix) : (runConstruction dv).data_v = dv := rfl

/-- Pointwise description of the constructed `data_m`: NaN at the seven
assigned positions, the copied `data_v` entry elsewhere. -/
lemma runConstruction_data_m (dv : NpMatrix) (i : Fin 10) (j : Fin 5) :
    (runConstruction dv).data_m i j =
      if (i, j) ∈ nanAssignments then NpVal.nan else dv i j := by
  fin_cases i <;> fin_cases j <;> rfl

/-- A conditional-increment fold over `range n` counts the indices satisfying
the condition. -/
lemma foldl_ite_count (P : ℕ → Prop) [DecidablePred P] :
    ∀ (n : ℕ) (c : ℚ),
      (List.range n).foldl (fun acc i => if P i then acc + 1 else acc) c
        = c + ((Finset.range n).filter P).card := by
  intro n
  induction n with
  | zero => intro c; simp
  | succ n ih =>
    intro c
    rw [List.range_succ, List.foldl_append, ih c]
    simp only [List.foldl_cons, List.foldl_nil]
    rw [Finset.range_succ, Finset.filter_insert]
    by_cases h : P n
    · rw [if_pos h, if_pos h, Finset.card_insert_of_not_mem (by simp)]
      push_cast
      ring
    · rw [if_neg h, if_neg h]

/-- Every element of a list reduced elementwise mod 2 is 0 or 1. -/
lemma mem_map_mod_two (l : List ℕ) : ∀ x ∈ l.map (· % 2), x = 0 ∨ x = 1 := by
  intro x hx
  rcases List.mem_map.1 hx with ⟨y, -, rfl⟩
  exact Nat.mod_two_eq_zero_or_one y

/-! ### The claims -/

/-- Claim C7: constructing the missing-values dataset leaves the valid dataset
unchanged — `data_m = np.copy(data_v)` followed by the seven NaN assignments
does not modify `data_v`, and `data_m` agrees with `data_v` at every index
other than the seven assigned positions (2,3), (0,1), (0,2), (1,0), (4,4),
(7,2), (9,1), which hold NaN. -/
theorem claim7_copy_frame (dv : NpMatrix) :
    (runConstruction dv).data_v = dv ∧
      ∀ i j, (runConstruction dv).data_m i j =
        if (i, j) ∈ nanAssignments then NpVal.nan else dv i j :=
  ⟨runConstruction_data_v dv, fun i j => runConstruction_data_m dv i j⟩

/-- Claim C3: the repository performs no missing-value imputation — the
missing-values notebook builds `data_m` by setting exactly the seven listed
positions to NaN, and the array passed to `xgb.DMatrix(data_m, label=label,
missing=np.nan)` and to `cross_val_score(clf, data_m, …)` is that very array:
its NaN entries are exactly the seven assigned positions (still present), all
other entries are the original numeric values, unreplaced. -/
theorem claim3_no_imputation (dv : NpMatrix) (lab : List ℕ)
    (h : ∀ i j, dv i j ≠ NpVal.nan) :
    nanAssignments.length = 7 ∧
    (dmatrixMissingCall dv lab).missing = NpVal.nan ∧
    (dmatrixMissingCall dv lab).label = lab ∧
    (dmatrixMissingCall dv lab).data = crossValMissingArg dv ∧
    (∀ i j, (dmatrixMissingCall dv lab).data i j = NpVal.nan ↔ (i, j) ∈ nanAssignments) ∧
    (∀ i j, (i, j) ∉ nanAssignments → (dmatrixMissingCall dv lab).data i j = dv i j) := by
  refine ⟨rfl, rfl, rfl, rfl, ?_, ?_⟩
  · intro i j
    have hm : (dmatrixMissingCall dv lab).data i j =
        if (i, j) ∈ nanAssignments then NpVal.nan else dv i j :=
      runConstruction_data_m dv i j
    by_cases hmem : (i, j) ∈ nanAssignments
    · simp [hm, hmem]
    · simp [hm, hmem, h i j]
  · intro i j hmem
    have hm : (dmatrixMissingCall dv lab).data i j =
        if (i, j) ∈ nanAssignments then NpVal.nan else dv i j :=
      runConstruction_data_m dv i j
    simp [hm, hmem]

/-- Witness for claim C3: the hypotheses hold at the concrete NaN-free dataset
`constDV` with an empty label vector. -/
theorem claim3_no_imputation_witness :
    (∀ i j, constDV i j ≠ NpVal.nan) ∧
    (nanAssignments.length = 7 ∧
     (dmatrixMissingCall constDV []).missing = NpVal.nan ∧
     (dmatrixMissingCall constDV []).label = [] ∧
     (dmatrixMissingCall constDV []).data = crossValMissingArg constDV ∧
     (∀ i j, (dmatrixMissingCall constDV []).data i j = NpVal.nan ↔
        (i, j) ∈ nanAssignments) ∧
     (∀ i j, (i, j) ∉ nanAssignments →
        (dmatrixMissingCall constDV []).data i j = constDV i j)) :=
  ⟨by decide, claim3_no_imputation constDV [] (by decide)⟩

/-- Claim C2: for equal-length `labels` and `preds` the accuracy loop of the
standard-interface notebook terminates (it is a structural fold here) with
`correct` equal to the number of indices `i` with `labels[i] == preds[i]`, and
for non-empty `preds` the printed error equals `1 - correct/len(preds)`. -/
theorem claim2_accuracy_loop (labels : List ℚ) (preds : List Bool)
    (hlen : labels.length = preds.length) (hne : preds ≠ []) :
    correctCount labels preds =
      ((Finset.range preds.length).filter
        (fun i => labels.getD i 0 = boolToFloat (preds.getD i false))).card ∧
    errorRate labels preds = 1 - correctCount labels preds / preds.length := by
  refine ⟨?_, rfl⟩
  have h := foldl_ite_count
    (fun i => labels.getD i 0 = boolToFloat (preds.getD i false)) preds.length 0
  simpa [correctCount] using h

/-- Witness for claim C2: concrete labels `[1, 0, 1]` and predictions
`[True, True, False]` (one matching index). -/
theorem claim2_accuracy_loop_witness :
    (([(1 : ℚ), 0, 1]).length = ([true, true, false]).length) ∧
    (([true, true, false] : List Bool) ≠ []) ∧
    (correctCount [1, 0, 1] [true, true, false] =
      ((Finset.range ([true, true, false] : List Bool).length).filter
        (fun i => ([(1 : ℚ), 0, 1]).getD i 0 =
          boolToFloat (([true, true, false] : List Bool).getD i false))).card ∧
     errorRate [1, 0, 1] [true, true, false] =
       1 - correctCount [1, 0, 1] [true, true, false] /
         ([true, true, false] : List Bool).length) :=
  ⟨by decide, by decide,
    claim2_accuracy_loop [1, 0, 1] [true, true, false] (by decide) (by decide)⟩

/-- Claim C6: the data preparation of the missing-values notebook is
deterministic — with the fixed seed 123, any two runs (from arbitrary prior
generator states) produce identical `data_v`, `data_m` and `label`, because
`np.random.seed(seed)` replaces the generator state by a function of the seed
alone before each draw; and every `label` entry, drawn by
`np.random.randint(2, size=10)`, lies in {0, 1}. -/
theorem claim6_seeded_determinism (s1 s2 : ℕ) :
    dataPrep s1 = dataPrep s2 ∧ ∀ x ∈ (dataPrep s1).label, x = 0 ∨ x = 1 := by
  refine ⟨rfl, ?_⟩
  have hlab : (dataPrep s1).label =
      ((drawNats 10 (npRandomSeed seedConst)).1).map (· % 2) := rfl
  rw [hlab]
  exact mem_map_mod_two _

/-- Claim C8: the prediction threshold is strict — `preds = preds_prob > 0.5`
makes `preds[i]` the positive class exactly when `preds_prob[i] > 0.5`, and a
predicted probability of exactly 0.5 is classified as the negative class. -/
theorem claim8_strict_threshold (pp : List ℚ) (i : ℕ) (hi : i < pp.length) :
    ((predsOf pp).getD i false = true ↔ 1 / 2 < pp.getD i 0) ∧
    (pp.getD i 0 = 1 / 2 → (predsOf pp).getD i false = false) := by
  have hlen : i < (predsOf pp).length := by simpa [predsOf] using hi
  have hval : (predsOf pp).getD i false = decide ((1 : ℚ) / 2 < pp.getD i 0) := by
    rw [List.getD_eq_getElem _ _ hlen, List.getD_eq_getElem _ _ hi]
    simp [predsOf]
  constructor
  · rw [hval]
    exact decide_eq_true_iff
  · intro h
    rw [hval, h]
    simp

/-- Witness for claim C8: the probability vector `[0.5, 1]` at index 0 — the
exact-0.5 probability is classified negative. -/
theorem claim8_strict_threshold_witness :
    (0 < ([(1 : ℚ) / 2, 1]).length) ∧
    (((predsOf [(1 : ℚ) / 2, 1]).getD 0 false = true ↔
        1 / 2 < ([(1 : ℚ) / 2, 1]).getD 0 0) ∧
     (([(1 : ℚ) / 2, 1]).getD 0 0 = 1 / 2 →
        (predsOf [(1 : ℚ) / 2, 1]).getD 0 false = false)) :=
  ⟨by decide, claim8_strict_threshold [(1 : ℚ) / 2, 1] 0 (by decide)⟩

/-- Claim C4: the notebooks contain no failure-handling logic — no transcribed
cell wraps anything in an exception handler; when the library call inside
`bst = xgb.train(…)` raises, the exception propagates uncaught out of the cell;
and the later cell `preds_prob = bst.predict(dtest)`, run after the failed
training cell left `bst` unbound, fails with `NameError`. -/
theorem claim4_no_failure_handling :
    (notebookOps.all (fun op => !hasExcHandler op) = true) ∧
    (∀ (e : PyExc) (env : Env), trainCell (Except.error e) env = Except.error e) ∧
    (∀ (e : PyExc) (pr : Booster → Except PyExc (List ℚ)),
      predictCell ((runCell (trainCell (Except.error e)) initialEnv).1) pr =
        Except.error PyExc.nameError) :=
  ⟨by decide, fun _ _ => rfl, fun _ _ => rfl⟩

/-- Claim C5: the notebooks exercise each advertised API operation — loading
data into `DMatrix` (from file and from arrays), setting hyperparameters via a
parameter dictionary, training with `xgb.train`, predicting with `bst.predict`,
and cross-validating with `xgb.cv` and `cross_val_score`. -/
theorem claim5_api_coverage :
    NotebookOp.dmatrixFromFile ∈ standardInterfaceOps ∧
    NotebookOp.dmatrixFromArray ∈ missingValuesOps ∧
    NotebookOp.dmatrixFromArrayMissing ∈ missingValuesOps ∧
    NotebookOp.paramsDict ∈ standardInterfaceOps ∧
    NotebookOp.paramsDict ∈ missingValuesOps ∧
    NotebookOp.trainCall ∈ standardInterfaceOps ∧
    NotebookOp.predictCall ∈ standardInterfaceOps ∧
    NotebookOp.cvCall ∈ missingValuesOps ∧
    NotebookOp.crossValScoreCall ∈ missingValuesOps := by
  decide

/-- Counterexample to claim C1 as stated: the standard-interface notebook does
contain a locally implemented computation whose result is reported to the user
— the accuracy cell runs a plain Python `for` loop accumulating `correct`
(embedded as `correctCount`, evaluated here on a concrete input) and prints the
count and the derived error rate; so it is false that every computational step
is a library call. -/
theorem claim1_counterexample :
    NotebookOp.accuracyLoopCell ∈ standardInterfaceOps ∧
    isLocalComputationReported NotebookOp.accuracyLoopCell = true ∧
    correctCount [1, 0] [true, false] = 2 ∧
    ¬ noLocalComputationClaim := by
  refine ⟨by decide, rfl, by norm_num [correctCount, List.range_succ, boolToFloat], ?_⟩
  intro h
  exact absurd (h NotebookOp.accuracyLoopCell (by decide)) (by decide)

/-- Claim C1 (amended): apart from the accuracy-metric loop of the
standard-interface notebook, the notebooks implement no computation of their
own whose result is reported to the user — every other transcribed cell only
sequences library calls, assigns literals, or prints/plots library results. -/
theorem claim1_amended_only_accuracy_loop (op : NotebookOp)
    (hop : op ∈ notebookOps) (hloc : isLocalComputationReported op = true) :
    op = NotebookOp.accuracyLoopCell := by
  cases op <;> first | rfl | exact absurd hloc (by decide)

/-- Witness for the amended claim C1, at the accuracy cell itself. -/
theorem claim1_amended_witness :
    NotebookOp.accuracyLoopCell ∈ notebookOps ∧
    isLocalComputationReported NotebookOp.accuracyLoopCell = true ∧
    NotebookOp.accuracyLoopCell = NotebookOp.accuracyLoopCell :=
  ⟨by decide, rfl,
    claim1_amended_only_accuracy_loop NotebookOp.accuracyLoopCell (by decide) rfl⟩
